import Mathlib

/-!
Verification of the schema-reference resolver and example generator of
`src/swagger2postman.py` (class `SwaggerToPostmanConverter`).

The embedding models Python JSON-like values with the inductive type `JSON`
below.  Python dicts parsed from JSON documents are insertion-ordered maps
with string keys; they are modelled as ordered association lists
`List (String × JSON)`, read with first-match `List.lookup` (keys coming
from a parsed document are unique, so first match is the match).

The converter object carries two immutable inputs, `components` (the schema
dictionary loaded in `fetch_swagger_definition`, lines 29-31) and
`swagger_data` (the whole source document), and one piece of mutable state,
the set `circular_refs`.  The set is threaded explicitly: every core
operation receives the current registry and returns the registry after the
call.  Python sets are unordered collections without duplicates; the
registry is modelled as a duplicate-free insertion-ordered list, with
`setAdd` as `set.add`.

Failure modes: inside `resolve_ref` the document walk (lines 80-84) is
guarded by `except (KeyError, IndexError)` (lines 86-88); those two caught
exception classes are modelled by `WalkErr.keyErr` and handled locally.
Exception classes that the source does *not* catch — `TypeError` from
indexing a non-subscriptable value, and `AttributeError` from calling
`.startswith` on a non-string `$ref` value or `.items()` on a non-dict
`properties` value — escape to the caller; they are the `PyExn` error
component of every result.

Recursion: the Python functions recurse with a `depth` counter checked
against `max_recursion_depth = 10` inside `resolve_ref` and
`generate_example_from_schema`.  The Lean embedding adds an explicit `fuel`
parameter that is decremented exactly where the Python call stack gains a
new `resolve_ref` frame (or a new `generate_example_from_schema` frame),
making every definition structurally recursive and executable.  `none`
means "fuel exhausted"; the termination theorems for claim C5 prove that a
fixed fuel bound independent of the input never returns `none`, which is
the termination property of the source.  The canonical (generously
fuelled) wrappers `resolve_ref`, `simplify_schema` and
`generate_example_from_schema` are what the other claims are stated about.
-/

/-- A Python value as found in a parsed JSON document.  `float` values only
ever appear in this program as the literal `0.0` built by the generator and
as document values copied verbatim, so they are modelled with an integral
payload. -/
inductive JSON where
  | null
  | bool (b : Bool)
  | int (n : Int)
  | float (n : Int)
  | str (s : String)
  | arr (elems : List JSON)
  | obj (fields : List (String × JSON))

/-- An uncaught Python exception escaping a core call.  `resolve_ref`
catches `KeyError` and `IndexError` (handled locally, see `WalkErr`), so
the exceptions that can actually propagate out of the core are `TypeError`
and `AttributeError`. -/
inductive PyExn where
  | typeError (msg : String)
  | attributeError (msg : String)

/-- Outcome of the raw reference-path walk of lines 80-84: either the
value reached, or the exception class raised by `ref_schema[path_part]`.
`keyErr` stands for the caught classes (`KeyError`; `IndexError` cannot
arise because every path part is a string). -/
inductive WalkErr where
  | keyErr
  | typeErr (msg : String)

/-- `self.max_recursion_depth`, set to 10 in `__init__` (line 18). -/
def max_recursion_depth : Nat := 10

/-- The converter state the core reads: `self.components` (line 19/29-31)
and `self.swagger_data` (line 16/27).  Both are immutable during a run. -/
structure SwaggerToPostmanConverter where
  components : List (String × JSON)
  swagger_data : JSON

/-- Result of one core call: the `circular_refs` registry after the call,
paired with the returned value or the uncaught exception. -/
abbrev CoreResult (α : Type) := List String × Except PyExn α

mutual
/-- Python `repr` of a value, used by `str()` inside f-strings for
non-string values.  Quotes are single quotes as CPython prints them; the
escape handling of exotic characters inside strings is not reproduced. -/
def pyRepr : JSON → String
  | .null => "None"
  | .bool true => "True"
  | .bool false => "False"
  | .int n => toString n
  | .float n => toString n ++ ".0"
  | .str s => "\x27" ++ s ++ "\x27"
  | .arr xs => "[" ++ pyReprElems xs ++ "]"
  | .obj fs => "\x7b" ++ pyReprFields fs ++ "\x7d"
def pyReprElems : List JSON → String
  | [] => ""
  | [x] => pyRepr x
  | x :: y :: rest => pyRepr x ++ ", " ++ pyReprElems (y :: rest)
def pyReprFields : List (String × JSON) → String
  | [] => ""
  | [(k, v)] => "\x27" ++ k ++ "\x27: " ++ pyRepr v
  | (k, v) :: f :: rest =>
      "\x27" ++ k ++ "\x27: " ++ pyRepr v ++ ", " ++ pyReprFields (f :: rest)
end

/-- Python `str()` as used by f-string interpolation: a `str` interpolates
without quotes, every other value through its `repr`. -/
def pyStr : JSON → String
  | .str s => s
  | v => pyRepr v

/-- The sentinel of line 48: `{"type": "string", "example": f"[Max depth
reached for: {ref}]"}`. -/
def maxDepthSentinel (ref : JSON) : JSON :=
  .obj [("type", .str "string"),
        ("example", .str ("[Max depth reached for: " ++ pyStr ref ++ "]"))]

/-- The sentinel of line 53: `{"type": "string", "example": f"[Circular
reference: {ref}]"}`. -/
def circularSentinel (ref : JSON) : JSON :=
  .obj [("type", .str "string"),
        ("example", .str ("[Circular reference: " ++ pyStr ref ++ "]"))]

/-- The sentinel of lines 105-108 and 121-127: `{"type": "string",
"example": f"[Circular reference to: {ref}]"}`. -/
def circularToSentinel (ref : JSON) : JSON :=
  .obj [("type", .str "string"),
        ("example", .str ("[Circular reference to: " ++ pyStr ref ++ "]"))]

/-- The sentinel of line 88: `{"type": "string", "example": f"[Failed to
resolve: {ref}]"}`. -/
def failedSentinel (ref : JSON) : JSON :=
  .obj [("type", .str "string"),
        ("example", .str ("[Failed to resolve: " ++ pyStr ref ++ "]"))]

/-- Python `ref in path` (line 51) and `prop_schema["$ref"] in path`
(lines 104, 120): `path` only ever holds strings (it is extended as
`path + [ref]` after `ref` passed the `.startswith` calls), and under
Python `==` none of the JSON value kinds other than `str` compares equal
to a `str`, so a non-string `$ref` value is simply never in the path. -/
def refInPath (ref : JSON) (path : List String) : Bool :=
  match ref with
  | .str s => path.contains s
  | _ => false

/-- `self.circular_refs.add(x)` (line 52) on the list model of the set:
append unless already present. -/
def setAdd (s : List String) (x : String) : List String :=
  if s.contains x then s else s ++ [x]

/-- Kernel-executable prefix test on character lists (the library
`String.startsWith` does not reduce definitionally). -/
def charPrefix : List Char → List Char → Bool
  | [], _ => true
  | _ :: _, [] => false
  | p :: ps, c :: cs => p == c && charPrefix ps cs

/-- Python `s.startswith(pre)`. -/
def pyStartsWith (s pre : String) : Bool := charPrefix pre.data s.data

/-- Kernel-executable splitter on character lists, with the semantics of
Python `s.split(sep)` for a one-character separator: the empty string
splits to `[""]`, separators at the ends produce empty pieces. -/
def splitCharList (sep : Char) : List Char → List (List Char)
  | [] => [[]]
  | c :: rest =>
      if c == sep then [] :: splitCharList sep rest
      else
        match splitCharList sep rest with
        | [] => [[c]]
        | g :: gs => (c :: g) :: gs

/-- Python `ref.split("/")`. -/
def pySplitSlash (s : String) : List String :=
  (splitCharList '/' s.data).map (fun l => String.mk l)

/-- `ref.split("/")[-1]` (lines 58, 70).  The split of any string is a
nonempty list, so the default is never used. -/
def lastPart (s : String) : String :=
  ((pySplitSlash s).getLastD "")

/-- The loop of lines 80-83: `for path_part in ref_path[1:]:
ref_schema = ref_schema[path_part]`.  Indexing a dict with a missing key
raises `KeyError` (caught at line 86); indexing anything that is not a
dict with a string raises `TypeError` (not caught). -/
def walkPath : JSON → List String → Except WalkErr JSON
  | v, [] => .ok v
  | .obj fields, k :: rest =>
      match fields.lookup k with
      | some v => walkPath v rest
      | none => .error .keyErr
  | .arr _, _ :: _ =>
      .error (.typeErr "list indices must be integers or slices, not str")
  | .str _, _ :: _ => .error (.typeErr "string indices must be integers")
  | .null, _ :: _ => .error (.typeErr "NoneType is not subscriptable")
  | .bool _, _ :: _ => .error (.typeErr "bool is not subscriptable")
  | .int _, _ :: _ => .error (.typeErr "int is not subscriptable")
  | .float _, _ :: _ => .error (.typeErr "float is not subscriptable")

/-- `schema["type"] in ["string", "number", "integer", "boolean"]`
(line 96). -/
def isPrimitiveType (t : JSON) : Bool :=
  match t with
  | .str s => s == "string" || s == "number" || s == "integer" || s == "boolean"
  | _ => false

/-- Python `==` against a string literal (`schema.get("type") == "object"`
and the like): only a `str` value can compare equal. -/
def isStrEq (t : JSON) (s : String) : Bool :=
  match t with
  | .str s2 => s2 == s
  | _ => false

/-- Helper for rebuilding the `simplified["properties"]` dict: prefix one
finished property onto the result of processing the rest, propagating fuel
exhaustion and exceptions. -/
def consProp (name : String) (v : JSON) :
    Option (CoreResult (List (String × JSON))) →
    Option (CoreResult (List (String × JSON)))
  | some (c, .ok l) => some (c, .ok ((name, v) :: l))
  | other => other

/-- The property loop of `simplify_schema`, lines 102-114.  `rn` is the
resolver available to the loop — in the source, `self.resolve_ref` called
at `depth + 1` with the *same* path; in the fuel-indexed embedding it is
`resolve_refF fuel st` for the enclosing fuel.  A property whose `$ref` is
already on the path is replaced by the cycle sentinel (without touching the
registry); any other `$ref` property is resolved; everything else passes
through unchanged. -/
def simplifyProps
    (rn : JSON → Nat → List String → List String → Option (CoreResult JSON)) :
    List (String × JSON) → Nat → List String → List String →
    Option (CoreResult (List (String × JSON)))
  | [], _, _, circ => some (circ, .ok [])
  | (name, ps) :: rest, depth, path, circ =>
      match ps with
      | .obj pf =>
          match pf.lookup "$ref" with
          | some refv =>
              if refInPath refv path then
                consProp name (circularToSentinel refv)
                  (simplifyProps rn rest depth path circ)
              else
                match rn refv (depth + 1) path circ with
                | some (c1, .ok v) =>
                    consProp name v (simplifyProps rn rest depth path c1)
                | some (c1, .error e) => some (c1, .error e)
                | none => none
          | none => consProp name ps (simplifyProps rn rest depth path circ)
      | _ => consProp name ps (simplifyProps rn rest depth path circ)

/-- `simplify_schema` (lines 90-135), parameterised like `simplifyProps`
by the resolver `rn` it hands reference-typed sub-schemas to.
Non-dicts return as is (line 92-93); a schema whose `type` is one of the
four primitive names returns as is (lines 96-97); an object schema (or one
with `properties`) is rebuilt property by property (lines 100-115) — note
`schema.get("properties", {}).items()` raises `AttributeError` when the
`properties` value is not a dict; an array schema with a `$ref` items dict
gets its single `items` slot the same treatment (lines 118-133); anything
else returns as is (line 135). -/
def simplify_schemaAux
    (rn : JSON → Nat → List String → List String → Option (CoreResult JSON))
    (schema : JSON) (depth : Nat) (path : List String) (circ : List String) :
    Option (CoreResult JSON) :=
  match schema with
  | .obj fields =>
      if isPrimitiveType ((fields.lookup "type").getD .null) then
        some (circ, .ok schema)
      else if isStrEq ((fields.lookup "type").getD .null) "object"
          || (fields.lookup "properties").isSome then
        match (fields.lookup "properties").getD (.obj []) with
        | .obj props =>
            match simplifyProps rn props depth path circ with
            | some (c, .ok l) =>
                some (c, .ok (.obj [("type", .str "object"),
                                    ("properties", .obj l)]))
            | some (c, .error e) => some (c, .error e)
            | none => none
        | _ => some (circ, .error (.attributeError "no attribute items"))
      else if isStrEq ((fields.lookup "type").getD .null) "array"
          && (fields.lookup "items").isSome then
        match (fields.lookup "items").getD .null with
        | .obj itf =>
            match itf.lookup "$ref" with
            | some refv =>
                if refInPath refv path then
                  some (circ, .ok (.obj [("type", .str "array"),
                                         ("items", circularToSentinel refv)]))
                else
                  match rn refv (depth + 1) path circ with
                  | some (c, .ok v) =>
                      some (c, .ok (.obj [("type", .str "array"),
                                          ("items", v)]))
                  | some (c, .error e) => some (c, .error e)
                  | none => none
            | none => some (circ, .ok schema)
        | _ => some (circ, .ok schema)
      else some (circ, .ok schema)
  | _ => some (circ, .ok schema)

/-- `resolve_ref` (lines 42-88), fuel-indexed.  Order of checks follows
the source: depth cutoff (line 47), cycle check against the active path
(lines 51-53, the only place that writes `circular_refs`), then the two
recognised namespaces — whose bodies are identical, so they are merged
here; note that a recognised prefix whose schema name is *not* in
`components` falls through to the raw document walk, exactly as the
source's `if`/`elif` structure does — and finally the raw walk with its
`except (KeyError, IndexError)` producing the failure sentinel.  A
non-string `ref` reaches `ref.startswith` and raises `AttributeError`.
Fuel is spent on each new `resolve_ref` frame. -/
def resolve_refF : Nat → SwaggerToPostmanConverter → JSON → Nat →
    List String → List String → Option (CoreResult JSON)
  | 0, _, _, _, _, _ => none
  | fuel + 1, st, ref, depth, path, circ =>
      if max_recursion_depth ≤ depth then
        some (circ, .ok (maxDepthSentinel ref))
      else if refInPath ref path then
        some (setAdd circ (pyStr ref), .ok (circularSentinel ref))
      else
        match ref with
        | .str s =>
            match
              (if pyStartsWith s "#/definitions/"
                  || pyStartsWith s "#/components/schemas/" then
                st.components.lookup (lastPart s)
              else none) with
            | some schema =>
                match schema with
                | .obj sf =>
                    match sf.lookup "$ref" with
                    | some r2 =>
                        resolve_refF fuel st r2 (depth + 1) (path ++ [s]) circ
                    | none =>
                        simplify_schemaAux (resolve_refF fuel st) schema
                          (depth + 1) (path ++ [s]) circ
                | _ => some (circ, .ok schema)
            | none =>
                match walkPath st.swagger_data ((pySplitSlash s).drop 1) with
                | .ok v =>
                    simplify_schemaAux (resolve_refF fuel st) v
                      (depth + 1) (path ++ [s]) circ
                | .error .keyErr => some (circ, .ok (failedSentinel (.str s)))
                | .error (.typeErr m) => some (circ, .error (.typeError m))
        | _ =>
            some (circ, .error (.attributeError "no attribute startswith"))

/-- The default value table of lines 159-166 applied to
`schema_type = schema.get("type", "object")`: `type_examples.get(schema_type, "")`.
The `"string"` entry is `schema.get("format", "string")`; a type tag that
is not one of the five listed keys (including `"object"`, `"array"`, and
any non-string tag) falls to the empty-string default. -/
def typeExample (fields : List (String × JSON)) (t : JSON) : JSON :=
  if isStrEq t "string" then (fields.lookup "format").getD (.str "string")
  else if isStrEq t "integer" then .int 0
  else if isStrEq t "number" then .float 0
  else if isStrEq t "boolean" then .bool false
  else if isStrEq t "null" then .null
  else .str ""

/-- `generate_example_from_schema` (lines 137-166), fuel-indexed.  Order
of checks follows the source: `not schema or not isinstance(schema, dict)`
returns `{}` (lines 139-140, *before* the depth check — a dict is falsy
exactly when empty), then the depth cutoff (lines 142-143), then `$ref`
resolution — a *fresh* `resolve_ref` call with default `depth=0`,
`path=[]` (lines 146-148) — then verbatim `example` and `default`
(lines 150-154), then the primitive table (lines 156-166).  Fuel is spent
on each recursive `generate_example_from_schema` frame; the embedded
`resolve_ref` call runs on the current fuel. -/
def generate_example_from_schemaF : Nat → SwaggerToPostmanConverter →
    JSON → Nat → List String → Option (CoreResult JSON)
  | 0, _, _, _, _ => none
  | fuel + 1, st, schema, depth, circ =>
      match schema with
      | .obj fields =>
          if fields.isEmpty then some (circ, .ok (.obj []))
          else if max_recursion_depth ≤ depth then
            some (circ, .ok (.obj [("error", .str "Max recursion depth exceeded")]))
          else
            match fields.lookup "$ref" with
            | some refv =>
                match resolve_refF (fuel + 1) st refv 0 [] circ with
                | some (c1, .ok resolved) =>
                    generate_example_from_schemaF fuel st resolved (depth + 1) c1
                | some (c1, .error e) => some (c1, .error e)
                | none => none
            | none =>
                match fields.lookup "example" with
                | some v => some (circ, .ok v)
                | none =>
                    match fields.lookup "default" with
                    | some v => some (circ, .ok v)
                    | none =>
                        some (circ, .ok (typeExample fields
                          ((fields.lookup "type").getD (.str "object"))))
      | _ => some (circ, .ok (.obj []))

/-- `resolve_ref` with the canonical generous fuel budget.  The C5
theorems show any fuel of at least 22 gives the same defined behaviour. -/
def resolve_ref (st : SwaggerToPostmanConverter) (ref : JSON) (depth : Nat)
    (path circ : List String) : Option (CoreResult JSON) :=
  resolve_refF 1000 st ref depth path circ

/-- `simplify_schema` with the canonical resolver. -/
def simplify_schema (st : SwaggerToPostmanConverter) (schema : JSON)
    (depth : Nat) (path circ : List String) : Option (CoreResult JSON) :=
  simplify_schemaAux (resolve_refF 1000 st) schema depth path circ

/-- `generate_example_from_schema` with the canonical fuel budget. -/
def generate_example_from_schema (st : SwaggerToPostmanConverter)
    (schema : JSON) (depth : Nat) (circ : List String) :
    Option (CoreResult JSON) :=
  generate_example_from_schemaF 1000 st schema depth circ

/-! ## Concrete scenario converters used by the claims -/

/-- An empty converter: no component schemas, no document.  Used for the
generator claims, which never consult the dictionary. -/
def stEmpty : SwaggerToPostmanConverter :=
  { components := [], swagger_data := .null }

/-- The self-referential dictionary of claim C3 and of spec section 8
"Cycle idempotence": schema `A` whose property `x` references `A`. -/
def stSelfRef : SwaggerToPostmanConverter :=
  { components := [("A", .obj [("type", .str "object"),
      ("properties", .obj [("x", .obj [("$ref", .str "#/definitions/A")])])])],
    swagger_data := .null }

/-- The dictionary of claim C6 and of spec section 8 "Non-cycle revisit":
schema `A` with two sibling properties `p`, `q` both referencing the
acyclic schema `B`. -/
def stTwoRefs : SwaggerToPostmanConverter :=
  { components :=
      [("A", .obj [("type", .str "object"),
         ("properties", .obj [("p", .obj [("$ref", .str "#/definitions/B")]),
                              ("q", .obj [("$ref", .str "#/definitions/B")])])]),
       ("B", .obj [("type", .str "object"),
         ("properties", .obj [("v", .obj [("type", .str "string")])])])],
    swagger_data := .null }

/-- A malformed source document for claim C4: the walk for the pointer
`#/a/b` reaches the string value at `#/a` and then indexes into it. -/
def stBadDoc : SwaggerToPostmanConverter :=
  { components := [], swagger_data := .obj [("a", .str "hello")] }

/-- A schema whose dictionary entry is itself a bare self-reference
(`D` is `{"$ref": "#/definitions/D"}`); resolving it re-enters
`resolve_ref` with the pointer already on the path, which is the one code
path that writes the circular-reference registry. -/
def stDirectSelf : SwaggerToPostmanConverter :=
  { components := [("D", .obj [("$ref", .str "#/definitions/D")])],
    swagger_data := .null }

/-- What resolving `#/definitions/A` against `stSelfRef` actually returns:
the object schema with the property `x` replaced by the cycle sentinel. -/
def selfRefResolved : JSON :=
  .obj [("type", .str "object"),
        ("properties", .obj [("x", .obj [("type", .str "string"),
          ("example", .str "[Circular reference to: #/definitions/A]")])])]

/-- The full (non-sentinel) expansion of schema `B` of `stTwoRefs`. -/
def bExpanded : JSON :=
  .obj [("type", .str "object"),
        ("properties", .obj [("v", .obj [("type", .str "string")])])]

/-! ## C1 -/

/-- C1 counterexample: the claim says an `object`-typed schema without
`example`/`default` generates a mapping built by recursing into each
declared property — so `{"type": "object", "properties": {"a": {"type":
"string"}}}` would generate `{"a": "string"}`.  The code has no object
branch in `generate_example_from_schema` at all: the type tag `object` is
not a key of `type_examples` (lines 159-166), so the call returns the
empty string instead. -/
theorem c1_counterexample :
    generate_example_from_schema stEmpty
      (.obj [("type", .str "object"),
             ("properties", .obj [("a", .obj [("type", .str "string")])])])
      0 []
      = some ([], .ok (.str ""))
    ∧ JSON.str "" ≠ JSON.obj [("a", JSON.str "string")] :=
  ⟨rfl, fun h => JSON.noConfusion h⟩

/-- C1 amended: a schema with declared type `object`, no `example`, no
`default` and no `$ref`, below the maximum depth, generates the empty
string: `object` is not a key of the `type_examples` table, so the lookup
falls to the `""` default; `generate_example_from_schema` never recurses
into properties. -/
theorem c1_amended (st : SwaggerToPostmanConverter) (fields : List (String × JSON))
    (depth : Nat) (circ : List String)
    (href : fields.lookup "$ref" = none)
    (hex : fields.lookup "example" = none)
    (hdef : fields.lookup "default" = none)
    (hty : fields.lookup "type" = some (.str "object"))
    (hd : depth < max_recursion_depth) :
    generate_example_from_schema st (.obj fields) depth circ =
      some (circ, .ok (.str "")) := by
  have hne : fields.isEmpty = false := by
    cases fields with
    | nil => simp at hty
    | cons a l => rfl
  show generate_example_from_schemaF (999 + 1) st (.obj fields) depth circ = _
  simp only [generate_example_from_schemaF, hne, href, hex, hdef, hty,
    Bool.false_eq_true, if_false, if_neg (Nat.not_le.mpr hd)]
  rfl

/-- C1 amended, witnessed at the counterexample schema of the claim. -/
theorem c1_amended_witness :
    generate_example_from_schema stEmpty
      (.obj [("type", .str "object"),
             ("properties", .obj [("a", .obj [("type", .str "string")])])])
      3 ["seed"]
      = some (["seed"], .ok (.str "")) :=
  c1_amended stEmpty _ 3 ["seed"] rfl rfl rfl rfl (by decide)

/-! ## C2 -/

/-- C2 counterexample: the claim says an `array`-typed schema with an
`items` sub-schema generates a one-element sequence, in particular
`{"type": "array", "items": {"type": "string"}}` generates `["string"]`.
The code has no array branch in `generate_example_from_schema`: the type
tag `array` is not a key of `type_examples`, so the call returns the empty
string, not a one-element sequence. -/
theorem c2_counterexample :
    generate_example_from_schema stEmpty
      (.obj [("type", .str "array"), ("items", .obj [("type", .str "string")])])
      0 []
      = some ([], .ok (.str ""))
    ∧ JSON.str "" ≠ JSON.arr [JSON.str "string"] :=
  ⟨rfl, fun h => JSON.noConfusion h⟩

/-- C2 amended: a schema with declared type `array`, no `example`, no
`default` and no `$ref`, below the maximum depth, generates the empty
string (whether or not an `items` sub-schema is present): `array` is not a
key of the `type_examples` table, and the generator never recurses into
`items`. -/
theorem c2_amended (st : SwaggerToPostmanConverter) (fields : List (String × JSON))
    (depth : Nat) (circ : List String)
    (href : fields.lookup "$ref" = none)
    (hex : fields.lookup "example" = none)
    (hdef : fields.lookup "default" = none)
    (hty : fields.lookup "type" = some (.str "array"))
    (hd : depth < max_recursion_depth) :
    generate_example_from_schema st (.obj fields) depth circ =
      some (circ, .ok (.str "")) := by
  have hne : fields.isEmpty = false := by
    cases fields with
    | nil => simp at hty
    | cons a l => rfl
  show generate_example_from_schemaF (999 + 1) st (.obj fields) depth circ = _
  simp only [generate_example_from_schemaF, hne, href, hex, hdef, hty,
    Bool.false_eq_true, if_false, if_neg (Nat.not_le.mpr hd)]
  rfl

/-- C2 amended, witnessed at the claim's own example schema. -/
theorem c2_amended_witness :
    generate_example_from_schema stEmpty
      (.obj [("type", .str "array"), ("items", .obj [("type", .str "string")])])
      0 []
      = some ([], .ok (.str "")) :=
  c2_amended stEmpty _ 0 [] rfl rfl rfl rfl (by decide)

/-! ## C3 -/

/-- C3 counterexample: resolving the self-referential schema `A` of
`stSelfRef` from a fresh call does return the object with the cycle
sentinel at property `x`, but the circular-reference registry stays empty
afterwards — the claim says it contains exactly `#/definitions/A`.  The
sentinel substitution of `simplify_schema` lines 104-108 does not touch
`self.circular_refs`; only re-entering `resolve_ref` itself with a pointer
already on the path (line 52) does. -/
theorem c3_counterexample :
    resolve_ref stSelfRef (.str "#/definitions/A") 0 [] [] =
      some ([], .ok selfRefResolved)
    ∧ "#/definitions/A" ∉ ([] : List String) :=
  ⟨rfl, by decide⟩

/-- C3 amended: resolving `A`'s pointer (fresh call: depth 0, empty path)
returns the object schema whose property `x` is the sentinel
`{"type": "string", "example": "[Circular reference to: #/definitions/A]"}`,
and the circular-reference registry is left unchanged (empty): the
short-circuit in schema simplification substitutes the sentinel without
recording the pointer. -/
theorem c3_amended :
    resolve_ref stSelfRef (.str "#/definitions/A") 0 [] [] =
      some ([], .ok selfRefResolved) := rfl

/-! ## C6 -/

/-- C6: in `stTwoRefs`, schema `A` references the acyclic schema `B` from
two sibling properties.  Resolving `A`'s pointer expands both occurrences
to the same full (non-sentinel) expansion `bExpanded` of `B`, and the
registry stays empty, so `B`'s pointer is not recorded as circular:
revisiting a pointer along different branches is not flagged as a cycle.
The second conjunct checks `bExpanded` is not the cycle sentinel. -/
theorem c6_non_cycle_revisit :
    resolve_ref stTwoRefs (.str "#/definitions/A") 0 [] [] =
      some ([], .ok (.obj [("type", .str "object"),
        ("properties", .obj [("p", bExpanded), ("q", bExpanded)])]))
    ∧ bExpanded ≠ circularToSentinel (.str "#/definitions/B") := by
  refine ⟨rfl, fun h => ?_⟩
  have h1 := congrArg (fun j => match j with
    | JSON.obj (("type", JSON.str t) :: _) => t
    | _ => "") h
  simp only [bExpanded, circularToSentinel] at h1
  exact absurd h1 (by decide)

/-! ## C4 -/

/-- C4 counterexample: the claim says `resolve_ref` returns a defined
schema value for every malformed dictionary/document and never lets an
exception propagate.  But the generic pointer walk catches only `KeyError`
and `IndexError` (line 86); for the pointer `#/a/b` against a document
where `#/a` is the string `"hello"`, `ref_schema["b"]` raises a
`TypeError`, which escapes `resolve_ref` to its caller. -/
theorem c4_counterexample :
    resolve_ref stBadDoc (.str "#/a/b") 0 [] [] =
      some ([], .error (.typeError "string indices must be integers")) := rfl

/-- C4 amended: failures of the *caught* kinds do degrade to the sentinel
and propagate no exception — for any pointer below the depth limit and not
on the active path, if the raw document walk fails with a `KeyError`, then
(a) when neither recognised namespace prefix matches, and (b) when the
`#/definitions/` prefix matches but the schema name is absent from the
dictionary, `resolve_ref` returns
`{"type": "string", "example": "[Failed to resolve: <ref>]"}`.  However
(see the counterexample) a walk that indexes into a non-subscriptable
value raises a `TypeError` that is not caught and escapes to the caller,
so the original "never lets an exception propagate" is false. -/
theorem c4_amended (st : SwaggerToPostmanConverter) (s : String) (depth : Nat)
    (path circ : List String)
    (hd : depth < max_recursion_depth)
    (hp : path.contains s = false)
    (hw : walkPath st.swagger_data ((pySplitSlash s).drop 1) = .error .keyErr) :
    (pyStartsWith s "#/definitions/" = false →
     pyStartsWith s "#/components/schemas/" = false →
     resolve_ref st (.str s) depth path circ =
       some (circ, .ok (failedSentinel (.str s))))
    ∧ (pyStartsWith s "#/definitions/" = true →
       st.components.lookup (lastPart s) = none →
       resolve_ref st (.str s) depth path circ =
         some (circ, .ok (failedSentinel (.str s)))) := by
  have hd2 : ¬ max_recursion_depth ≤ depth := Nat.not_le.mpr hd
  constructor
  · intro h1 h2
    show resolve_refF (999 + 1) st (.str s) depth path circ = _
    simp only [resolve_refF, refInPath, hp, h1, h2, hw, if_neg hd2,
      Bool.or_self, Bool.false_eq_true, if_false]
  · intro h1 h2
    show resolve_refF (999 + 1) st (.str s) depth path circ = _
    simp only [resolve_refF, refInPath, hp, h1, h2, hw, if_neg hd2,
      Bool.true_or, if_true, Bool.false_eq_true, if_false]

/-- C4 amended, witnessed: an unrecognised pointer whose walk hits a
missing key degrades to the failure sentinel. -/
theorem c4_amended_witness :
    resolve_ref stBadDoc (.str "x/b") 0 [] [] =
      some ([], .ok (failedSentinel (.str "x/b"))) :=
  (c4_amended stBadDoc "x/b" 0 [] [] (by decide) rfl rfl).1 rfl rfl

/-! ## C7 -/

/-- C7: for a non-reference dict schema below the maximum depth, an
`example` value is returned verbatim (no type check against `type`);
otherwise a `default` value is returned verbatim; otherwise the type tag
dispatches: `string` maps to the `format` value if present else the
literal `"string"`, `integer` to `0`, `number` to `0.0`, `boolean` to
`False` (lines 150-166). -/
theorem c7_primitive_generation (st : SwaggerToPostmanConverter)
    (fields : List (String × JSON)) (depth : Nat) (circ : List String)
    (href : fields.lookup "$ref" = none)
    (hd : depth < max_recursion_depth) :
    (∀ v, fields.lookup "example" = some v →
      generate_example_from_schema st (.obj fields) depth circ =
        some (circ, .ok v))
    ∧ (fields.lookup "example" = none →
       ∀ v, fields.lookup "default" = some v →
      generate_example_from_schema st (.obj fields) depth circ =
        some (circ, .ok v))
    ∧ (fields.lookup "example" = none → fields.lookup "default" = none →
       fields.lookup "type" = some (.str "string") →
      generate_example_from_schema st (.obj fields) depth circ =
        some (circ, .ok ((fields.lookup "format").getD (.str "string"))))
    ∧ (fields.lookup "example" = none → fields.lookup "default" = none →
       fields.lookup "type" = some (.str "integer") →
      generate_example_from_schema st (.obj fields) depth circ =
        some (circ, .ok (.int 0)))
    ∧ (fields.lookup "example" = none → fields.lookup "default" = none →
       fields.lookup "type" = some (.str "number") →
      generate_example_from_schema st (.obj fields) depth circ =
        some (circ, .ok (.float 0)))
    ∧ (fields.lookup "example" = none → fields.lookup "default" = none →
       fields.lookup "type" = some (.str "boolean") →
      generate_example_from_schema st (.obj fields) depth circ =
        some (circ, .ok (.bool false))) := by
  have hd2 : ¬ max_recursion_depth ≤ depth := Nat.not_le.mpr hd
  refine ⟨?_, ?_, ?_, ?_, ?_, ?_⟩
  · intro v hex
    have hne : fields.isEmpty = false := by
      cases fields with
      | nil => simp at hex
      | cons a l => rfl
    show generate_example_from_schemaF (999 + 1) st (.obj fields) depth circ = _
    simp only [generate_example_from_schemaF, hne, href, hex,
      Bool.false_eq_true, if_false, if_neg hd2]
  · intro hex v hdef
    have hne : fields.isEmpty = false := by
      cases fields with
      | nil => simp at hdef
      | cons a l => rfl
    show generate_example_from_schemaF (999 + 1) st (.obj fields) depth circ = _
    simp only [generate_example_from_schemaF, hne, href, hex, hdef,
      Bool.false_eq_true, if_false, if_neg hd2]
  · intro hex hdef hty
    have hne : fields.isEmpty = false := by
      cases fields with
      | nil => simp at hty
      | cons a l => rfl
    show generate_example_from_schemaF (999 + 1) st (.obj fields) depth circ = _
    simp only [generate_example_from_schemaF, hne, href, hex, hdef, hty,
      Bool.false_eq_true, if_false, if_neg hd2]
    rfl
  · intro hex hdef hty
    have hne : fields.isEmpty = false := by
      cases fields with
      | nil => simp at hty
      | cons a l => rfl
    show generate_example_from_schemaF (999 + 1) st (.obj fields) depth circ = _
    simp only [generate_example_from_schemaF, hne, href, hex, hdef, hty,
      Bool.false_eq_true, if_false, if_neg hd2]
    rfl
  · intro hex hdef hty
    have hne : fields.isEmpty = false := by
      cases fields with
      | nil => simp at hty
      | cons a l => rfl
    show generate_example_from_schemaF (999 + 1) st (.obj fields) depth circ = _
    simp only [generate_example_from_schemaF, hne, href, hex, hdef, hty,
      Bool.false_eq_true, if_false, if_neg hd2]
    rfl
  · intro hex hdef hty
    have hne : fields.isEmpty = false := by
      cases fields with
      | nil => simp at hty
      | cons a l => rfl
    show generate_example_from_schemaF (999 + 1) st (.obj fields) depth circ = _
    simp only [generate_example_from_schemaF, hne, href, hex, hdef, hty,
      Bool.false_eq_true, if_false, if_neg hd2]
    rfl

/-- C7 witnessed at the claim's own examples: `example: 42` beats
`type: integer`, and `format: date` is returned for a string schema. -/
theorem c7_witness :
    generate_example_from_schema stEmpty
      (.obj [("type", .str "integer"), ("example", .int 42)]) 0 [] =
      some ([], .ok (.int 42))
    ∧ generate_example_from_schema stEmpty
      (.obj [("type", .str "string"), ("format", .str "date")]) 0 [] =
      some ([], .ok (.str "date")) :=
  ⟨(c7_primitive_generation stEmpty
      [("type", .str "integer"), ("example", .int 42)] 0 [] rfl
      (by decide)).1 (.int 42) rfl,
   (c7_primitive_generation stEmpty
      [("type", .str "string"), ("format", .str "date")] 0 [] rfl
      (by decide)).2.2.1 rfl rfl rfl⟩

/-! ## C10 -/

/-- C10: the empty-schema check of lines 139-140 runs before the depth
check of lines 142-143, so for every depth — including at or above the
maximum — a `None`, empty-dict or non-dict schema generates `{}`, and the
`{"error": "Max recursion depth exceeded"}` diagnostic can only ever be
returned for a schema that is a non-empty dict. -/
theorem c10_empty_schema_before_depth (st : SwaggerToPostmanConverter)
    (s : JSON) (depth : Nat) (circ : List String) :
    (generate_example_from_schema st .null depth circ =
      some (circ, .ok (.obj [])))
    ∧ (generate_example_from_schema st (.obj []) depth circ =
      some (circ, .ok (.obj [])))
    ∧ ((∀ fs, s ≠ .obj fs) →
      generate_example_from_schema st s depth circ =
        some (circ, .ok (.obj [])))
    ∧ (∀ r, generate_example_from_schema st s depth circ =
        some (r, .ok (.obj [("error", .str "Max recursion depth exceeded")])) →
      ∃ fs, s = .obj fs ∧ fs ≠ []) := by
  refine ⟨rfl, rfl, ?_, ?_⟩
  · intro h
    cases s with
    | obj fs => exact absurd rfl (h fs)
    | null => rfl
    | bool b => rfl
    | int n => rfl
    | float n => rfl
    | str t => rfl
    | arr xs => rfl
  · intro r h
    cases s with
    | obj fs =>
        cases fs with
        | nil =>
            rw [show generate_example_from_schema st (.obj []) depth circ =
              some (circ, .ok (.obj [])) from rfl] at h
            simp at h
        | cons a l => exact ⟨a :: l, rfl, by simp⟩
    | null =>
        rw [show generate_example_from_schema st .null depth circ =
          some (circ, .ok (.obj [])) from rfl] at h
        simp at h
    | bool b =>
        rw [show generate_example_from_schema st (.bool b) depth circ =
          some (circ, .ok (.obj [])) from rfl] at h
        simp at h
    | int n =>
        rw [show generate_example_from_schema st (.int n) depth circ =
          some (circ, .ok (.obj [])) from rfl] at h
        simp at h
    | float n =>
        rw [show generate_example_from_schema st (.float n) depth circ =
          some (circ, .ok (.obj [])) from rfl] at h
        simp at h
    | str t =>
        rw [show generate_example_from_schema st (.str t) depth circ =
          some (circ, .ok (.obj [])) from rfl] at h
        simp at h
    | arr xs =>
        rw [show generate_example_from_schema st (.arr xs) depth circ =
          some (circ, .ok (.obj [])) from rfl] at h
        simp at h

/-- C10 witnessed: a non-dict schema at depth 20 (above the maximum)
still generates `{}`, not the depth diagnostic. -/
theorem c10_witness :
    generate_example_from_schema stEmpty (.str "still fine") 20 [] =
      some ([], .ok (.obj [])) :=
  (c10_empty_schema_before_depth stEmpty (.str "still fine") 20 []).2.2.1
    (fun _ h => JSON.noConfusion h)

/-! ## Registry lemmas (claim C9): every core call only appends to the
circular-reference registry it is given. -/

lemma setAdd_append (c : List String) (x : String) : ∃ l, setAdd c x = c ++ l := by
  unfold setAdd
  split
  · exact ⟨[], by simp⟩
  · exact ⟨[x], rfl⟩

lemma consProp_some (name : String) (v : JSON)
    (o : Option (CoreResult (List (String × JSON)))) (r : List String)
    (e : Except PyExn (List (String × JSON)))
    (h : consProp name v o = some (r, e)) : ∃ e0, o = some (r, e0) := by
  cases o with
  | none => simp [consProp] at h
  | some p =>
      obtain ⟨c, e1⟩ := p
      cases e1 with
      | ok l =>
          simp only [consProp, Option.some.injEq, Prod.mk.injEq] at h
          exact ⟨.ok l, by rw [h.1]⟩
      | error err =>
          simp only [consProp, Option.some.injEq, Prod.mk.injEq] at h
          exact ⟨.error err, by rw [h.1]⟩

lemma simplifyProps_reg
    (rn : JSON → Nat → List String → List String → Option (CoreResult JSON))
    (hrn : ∀ refv d path c r v,
      rn refv d path c = some (r, v) → ∃ l, r = c ++ l) :
    ∀ (props : List (String × JSON)) (depth : Nat) (path circ r : List String)
      (v : Except PyExn (List (String × JSON))),
      simplifyProps rn props depth path circ = some (r, v) →
      ∃ l, r = circ ++ l := by
  intro props
  induction props with
  | nil =>
      intro depth path circ r v h
      simp only [simplifyProps, Option.some.injEq, Prod.mk.injEq] at h
      exact ⟨[], by rw [← h.1]; simp⟩
  | cons hd tl ih =>
      obtain ⟨name, ps⟩ := hd
      intro depth path circ r v h
      cases ps with
      | obj pf =>
          simp only [simplifyProps] at h
          cases hlk : pf.lookup "$ref" with
          | some refv =>
              rw [hlk] at h
              dsimp only at h
              by_cases hip : refInPath refv path
              · rw [if_pos hip] at h
                obtain ⟨e0, h2⟩ := consProp_some _ _ _ _ _ h
                exact ih depth path circ r e0 h2
              · rw [if_neg hip] at h
                cases hres : rn refv (depth + 1) path circ with
                | none => rw [hres] at h; dsimp only at h; exact absurd h (by simp)
                | some p =>
                    obtain ⟨c1, e1⟩ := p
                    rw [hres] at h
                    cases e1 with
                    | ok w =>
                        dsimp only at h
                        obtain ⟨l1, hl1⟩ := hrn _ _ _ _ _ _ hres
                        obtain ⟨e0, h2⟩ := consProp_some _ _ _ _ _ h
                        obtain ⟨l2, hl2⟩ := ih depth path c1 r e0 h2
                        exact ⟨l1 ++ l2, by rw [hl2, hl1, List.append_assoc]⟩
                    | error err =>
                        simp only [Option.some.injEq, Prod.mk.injEq] at h
                        obtain ⟨l1, hl1⟩ := hrn _ _ _ _ _ _ hres
                        exact ⟨l1, by rw [← h.1, hl1]⟩
          | none =>
              rw [hlk] at h
              dsimp only at h
              obtain ⟨e0, h2⟩ := consProp_some _ _ _ _ _ h
              exact ih depth path circ r e0 h2
      | null =>
          simp only [simplifyProps] at h
          obtain ⟨e0, h2⟩ := consProp_some _ _ _ _ _ h
          exact ih depth path circ r e0 h2
      | bool b =>
          simp only [simplifyProps] at h
          obtain ⟨e0, h2⟩ := consProp_some _ _ _ _ _ h
          exact ih depth path circ r e0 h2
      | int n =>
          simp only [simplifyProps] at h
          obtain ⟨e0, h2⟩ := consProp_some _ _ _ _ _ h
          exact ih depth path circ r e0 h2
      | float n =>
          simp only [simplifyProps] at h
          obtain ⟨e0, h2⟩ := consProp_some _ _ _ _ _ h
          exact ih depth path circ r e0 h2
      | str t =>
          simp only [simplifyProps] at h
          obtain ⟨e0, h2⟩ := consProp_some _ _ _ _ _ h
          exact ih depth path circ r e0 h2
      | arr xs =>
          simp only [simplifyProps] at h
          obtain ⟨e0, h2⟩ := consProp_some _ _ _ _ _ h
          exact ih depth path circ r e0 h2

lemma reg_refl_of_some {α : Type} {circ r : List String} {x v : Except PyExn α}
    (h : (some ((circ, x)) : Option (CoreResult α)) = some (r, v)) :
    ∃ l, r = circ ++ l := by
  simp only [Option.some.injEq, Prod.mk.injEq] at h
  exact ⟨[], by rw [← h.1]; simp⟩

lemma simplify_schemaAux_reg
    (rn : JSON → Nat → List String → List String → Option (CoreResult JSON))
    (hrn : ∀ refv d path c r v,
      rn refv d path c = some (r, v) → ∃ l, r = c ++ l) :
    ∀ (schema : JSON) (depth : Nat) (path circ r : List String)
      (v : Except PyExn JSON),
      simplify_schemaAux rn schema depth path circ = some (r, v) →
      ∃ l, r = circ ++ l := by
  intro schema depth path circ r v h
  cases schema with
  | null => exact reg_refl_of_some h
  | bool b => exact reg_refl_of_some h
  | int n => exact reg_refl_of_some h
  | float n => exact reg_refl_of_some h
  | str t => exact reg_refl_of_some h
  | arr xs => exact reg_refl_of_some h
  | obj fields =>
      simp only [simplify_schemaAux] at h
      by_cases hprim : isPrimitiveType ((fields.lookup "type").getD .null) = true
      · rw [if_pos hprim] at h
        exact reg_refl_of_some h
      · rw [if_neg hprim] at h
        by_cases hobj : (isStrEq ((fields.lookup "type").getD .null) "object"
            || (fields.lookup "properties").isSome) = true
        · rw [if_pos hobj] at h
          cases hpv : (fields.lookup "properties").getD (.obj []) with
          | obj props =>
              rw [hpv] at h
              dsimp only at h
              cases hsp : simplifyProps rn props depth path circ with
              | none => rw [hsp] at h; exact absurd h (by simp)
              | some p =>
                  obtain ⟨c, e⟩ := p
                  rw [hsp] at h
                  cases e with
                  | ok l =>
                      dsimp only at h
                      obtain ⟨l1, hl1⟩ := simplifyProps_reg rn hrn _ _ _ _ _ _ hsp
                      simp only [Option.some.injEq, Prod.mk.injEq] at h
                      exact ⟨l1, by rw [← h.1, hl1]⟩
                  | error err =>
                      dsimp only at h
                      obtain ⟨l1, hl1⟩ := simplifyProps_reg rn hrn _ _ _ _ _ _ hsp
                      simp only [Option.some.injEq, Prod.mk.injEq] at h
                      exact ⟨l1, by rw [← h.1, hl1]⟩
          | null => rw [hpv] at h; exact reg_refl_of_some h
          | bool b => rw [hpv] at h; exact reg_refl_of_some h
          | int n => rw [hpv] at h; exact reg_refl_of_some h
          | float n => rw [hpv] at h; exact reg_refl_of_some h
          | str t => rw [hpv] at h; exact reg_refl_of_some h
          | arr xs => rw [hpv] at h; exact reg_refl_of_some h
        · rw [if_neg hobj] at h
          by_cases harr : (isStrEq ((fields.lookup "type").getD .null) "array"
              && (fields.lookup "items").isSome) = true
          · rw [if_pos harr] at h
            cases hit : (fields.lookup "items").getD .null with
            | obj itf =>
                rw [hit] at h
                dsimp only at h
                cases hlk : itf.lookup "$ref" with
                | some refv =>
                    rw [hlk] at h
                    dsimp only at h
                    by_cases hip : refInPath refv path = true
                    · rw [if_pos hip] at h
                      exact reg_refl_of_some h
                    · rw [if_neg hip] at h
                      cases hres : rn refv (depth + 1) path circ with
                      | none => rw [hres] at h; exact absurd h (by simp)
                      | some p =>
                          obtain ⟨c, e⟩ := p
                          rw [hres] at h
                          cases e with
                          | ok w =>
                              dsimp only at h
                              obtain ⟨l1, hl1⟩ := hrn _ _ _ _ _ _ hres
                              simp only [Option.some.injEq, Prod.mk.injEq] at h
                              exact ⟨l1, by rw [← h.1, hl1]⟩
                          | error err =>
                              dsimp only at h
                              obtain ⟨l1, hl1⟩ := hrn _ _ _ _ _ _ hres
                              simp only [Option.some.injEq, Prod.mk.injEq] at h
                              exact ⟨l1, by rw [← h.1, hl1]⟩
                | none => rw [hlk] at h; exact reg_refl_of_some h
            | null => rw [hit] at h; exact reg_refl_of_some h
            | bool b => rw [hit] at h; exact reg_refl_of_some h
            | int n => rw [hit] at h; exact reg_refl_of_some h
            | float n => rw [hit] at h; exact reg_refl_of_some h
            | str t => rw [hit] at h; exact reg_refl_of_some h
            | arr xs => rw [hit] at h; exact reg_refl_of_some h
          · rw [if_neg harr] at h
            exact reg_refl_of_some h

lemma resolve_refF_reg :
    ∀ (fuel : Nat) (st : SwaggerToPostmanConverter) (ref : JSON) (depth : Nat)
      (path circ r : List String) (v : Except PyExn JSON),
      resolve_refF fuel st ref depth path circ = some (r, v) →
      ∃ l, r = circ ++ l := by
  intro fuel
  induction fuel with
  | zero =>
      intro st ref depth path circ r v h
      exact absurd h (by simp [resolve_refF])
  | succ fuel ih =>
      intro st ref depth path circ r v h
      simp only [resolve_refF] at h
      by_cases hd : max_recursion_depth ≤ depth
      · rw [if_pos hd] at h
        exact reg_refl_of_some h
      · rw [if_neg hd] at h
        by_cases hip : refInPath ref path = true
        · rw [if_pos hip] at h
          simp only [Option.some.injEq, Prod.mk.injEq] at h
          obtain ⟨l1, hl1⟩ := setAdd_append circ (pyStr ref)
          exact ⟨l1, by rw [← h.1, hl1]⟩
        · rw [if_neg hip] at h
          cases ref with
          | null => exact reg_refl_of_some h
          | bool b => exact reg_refl_of_some h
          | int n => exact reg_refl_of_some h
          | float n => exact reg_refl_of_some h
          | arr xs => exact reg_refl_of_some h
          | obj ofs => exact reg_refl_of_some h
          | str s =>
              dsimp only at h
              by_cases hpre : (pyStartsWith s "#/definitions/"
                  || pyStartsWith s "#/components/schemas/") = true
              · rw [if_pos hpre] at h
                cases hlk : st.components.lookup (lastPart s) with
                | some schema =>
                    rw [hlk] at h
                    cases schema with
                    | obj sf =>
                        dsimp only at h
                        cases hrf : sf.lookup "$ref" with
                        | some r2 =>
                            rw [hrf] at h
                            dsimp only at h
                            exact ih _ _ _ _ _ _ _ h
                        | none =>
                            rw [hrf] at h
                            dsimp only at h
                            exact simplify_schemaAux_reg _
                              (fun a b c d e f hh => ih st a b c d e f hh)
                              _ _ _ _ _ _ h
                    | null => exact reg_refl_of_some h
                    | bool b => exact reg_refl_of_some h
                    | int n => exact reg_refl_of_some h
                    | float n => exact reg_refl_of_some h
                    | str t => exact reg_refl_of_some h
                    | arr xs => exact reg_refl_of_some h
                | none =>
                    rw [hlk] at h
                    dsimp only at h
                    cases hw : walkPath st.swagger_data ((pySplitSlash s).drop 1) with
                    | ok v2 =>
                        rw [hw] at h
                        dsimp only at h
                        exact simplify_schemaAux_reg _
                          (fun a b c d e f hh => ih st a b c d e f hh)
                          _ _ _ _ _ _ h
                    | error e2 =>
                        rw [hw] at h
                        cases e2 with
                        | keyErr => exact reg_refl_of_some h
                        | typeErr m => exact reg_refl_of_some h
              · rw [if_neg hpre] at h
                dsimp only at h
                cases hw : walkPath st.swagger_data ((pySplitSlash s).drop 1) with
                | ok v2 =>
                    rw [hw] at h
                    dsimp only at h
                    exact simplify_schemaAux_reg _
                      (fun a b c d e f hh => ih st a b c d e f hh)
                      _ _ _ _ _ _ h
                | error e2 =>
                    rw [hw] at h
                    cases e2 with
                    | keyErr => exact reg_refl_of_some h
                    | typeErr m => exact reg_refl_of_some h

lemma generate_example_from_schemaF_reg :
    ∀ (fuel : Nat) (st : SwaggerToPostmanConverter) (schema : JSON)
      (depth : Nat) (circ r : List String) (v : Except PyExn JSON),
      generate_example_from_schemaF fuel st schema depth circ = some (r, v) →
      ∃ l, r = circ ++ l := by
  intro fuel
  induction fuel with
  | zero =>
      intro st schema depth circ r v h
      exact absurd h (by simp [generate_example_from_schemaF])
  | succ fuel ih =>
      intro st schema depth circ r v h
      simp only [generate_example_from_schemaF] at h
      cases schema with
      | null => exact reg_refl_of_some h
      | bool b => exact reg_refl_of_some h
      | int n => exact reg_refl_of_some h
      | float n => exact reg_refl_of_some h
      | str t => exact reg_refl_of_some h
      | arr xs => exact reg_refl_of_some h
      | obj fields =>
          dsimp only at h
          by_cases hne : fields.isEmpty = true
          · rw [if_pos hne] at h
            exact reg_refl_of_some h
          · rw [if_neg hne] at h
            by_cases hd : max_recursion_depth ≤ depth
            · rw [if_pos hd] at h
              exact reg_refl_of_some h
            · rw [if_neg hd] at h
              cases hrf : fields.lookup "$ref" with
              | some refv =>
                  rw [hrf] at h
                  dsimp only at h
                  cases hres : resolve_refF (fuel + 1) st refv 0 [] circ with
                  | none => rw [hres] at h; exact absurd h (by simp)
                  | some p =>
                      obtain ⟨c1, e1⟩ := p
                      rw [hres] at h
                      cases e1 with
                      | ok resolved =>
                          dsimp only at h
                          obtain ⟨l1, hl1⟩ := resolve_refF_reg _ _ _ _ _ _ _ _ hres
                          obtain ⟨l2, hl2⟩ := ih _ _ _ _ _ _ h
                          exact ⟨l1 ++ l2, by rw [hl2, hl1, List.append_assoc]⟩
                      | error err =>
                          dsimp only at h
                          obtain ⟨l1, hl1⟩ := resolve_refF_reg _ _ _ _ _ _ _ _ hres
                          simp only [Option.some.injEq, Prod.mk.injEq] at h
                          exact ⟨l1, by rw [← h.1, hl1]⟩
              | none =>
                  rw [hrf] at h
                  dsimp only at h
                  cases hex : fields.lookup "example" with
                  | some v2 => rw [hex] at h; exact reg_refl_of_some h
                  | none =>
                      rw [hex] at h
                      dsimp only at h
                      cases hdf : fields.lookup "default" with
                      | some v2 => rw [hdf] at h; exact reg_refl_of_some h
                      | none =>
                          rw [hdf] at h
                          dsimp only at h
                          exact reg_refl_of_some h

/-! ## C9 -/

/-- C9: the schema dictionary and source document are read-only by
construction (no core operation returns a modified
`SwaggerToPostmanConverter`), and the only converter state the three core
operations mutate is the circular-reference registry, append-only: every
defined call returns a registry of which the input registry is a prefix —
pointers are only ever added, never removed. -/
theorem c9_registry_append_only (st : SwaggerToPostmanConverter)
    (ref schema gschema : JSON) (depth gdepth : Nat) (path circ : List String) :
    (∀ r v, resolve_ref st ref depth path circ = some (r, v) →
      ∃ l, r = circ ++ l)
    ∧ (∀ r v, simplify_schema st schema depth path circ = some (r, v) →
      ∃ l, r = circ ++ l)
    ∧ (∀ r v, generate_example_from_schema st gschema gdepth circ = some (r, v) →
      ∃ l, r = circ ++ l) :=
  ⟨fun r v h => resolve_refF_reg 1000 st ref depth path circ r v h,
   fun r v h => simplify_schemaAux_reg _
     (fun a b c d e f hh => resolve_refF_reg 1000 st a b c d e f hh)
     schema depth path circ r v h,
   fun r v h => generate_example_from_schemaF_reg 1000 st gschema gdepth circ r v h⟩

/-- C9 witnessed on a run that does extend the registry: resolving the
directly self-referential schema `D` starting from registry `["seed"]`
appends `#/definitions/D` and keeps the seed entry. -/
theorem c9_witness :
    ∃ l, ["seed", "#/definitions/D"] = ["seed"] ++ l :=
  (c9_registry_append_only stDirectSelf (.str "#/definitions/D") .null .null
      0 0 [] ["seed"]).1
    ["seed", "#/definitions/D"] (.ok (circularSentinel (.str "#/definitions/D"))) rfl

/-! ## Value lemmas (claim C8): the value (or exception) a core call
returns does not depend on the registry contents it starts from — the code
only ever writes `circular_refs`, it never reads it. -/

lemma consProp_val (name : String) (v : JSON)
    (o o2 : Option (CoreResult (List (String × JSON))))
    (h : o.map Prod.snd = o2.map Prod.snd) :
    (consProp name v o).map Prod.snd = (consProp name v o2).map Prod.snd := by
  cases o with
  | none =>
      cases o2 with
      | none => rfl
      | some p => simp at h
  | some p =>
      cases o2 with
      | none => simp at h
      | some p2 =>
          obtain ⟨c, e⟩ := p
          obtain ⟨c2, e2⟩ := p2
          simp only [Option.map_some', Prod.snd, Option.some.injEq] at h
          subst h
          cases e with
          | ok l => rfl
          | error err => rfl

lemma simplifyProps_val
    (rn : JSON → Nat → List String → List String → Option (CoreResult JSON))
    (hrn : ∀ refv d path c c2,
      (rn refv d path c).map Prod.snd = (rn refv d path c2).map Prod.snd) :
    ∀ (props : List (String × JSON)) (depth : Nat) (path c c2 : List String),
      (simplifyProps rn props depth path c).map Prod.snd =
      (simplifyProps rn props depth path c2).map Prod.snd := by
  intro props
  induction props with
  | nil => intro depth path c c2; rfl
  | cons hd tl ih =>
      obtain ⟨name, ps⟩ := hd
      intro depth path c c2
      cases ps with
      | obj pf =>
          simp only [simplifyProps]
          cases hlk : pf.lookup "$ref" with
          | some refv =>
              dsimp only
              by_cases hip : refInPath refv path = true
              · rw [if_pos hip, if_pos hip]
                exact consProp_val _ _ _ _ (ih depth path c c2)
              · rw [if_neg hip, if_neg hip]
                have hv := hrn refv (depth + 1) path c c2
                cases h1 : rn refv (depth + 1) path c with
                | none =>
                    cases h2 : rn refv (depth + 1) path c2 with
                    | none => rfl
                    | some p2 => rw [h1, h2] at hv; simp at hv
                | some p =>
                    cases h2 : rn refv (depth + 1) path c2 with
                    | none => rw [h1, h2] at hv; simp at hv
                    | some p2 =>
                        obtain ⟨a, e⟩ := p
                        obtain ⟨a2, e2⟩ := p2
                        rw [h1, h2] at hv
                        simp only [Option.map_some', Prod.snd,
                          Option.some.injEq] at hv
                        subst hv
                        cases e with
                        | ok w =>
                            dsimp only
                            exact consProp_val _ _ _ _ (ih depth path a a2)
                        | error err => rfl
          | none =>
              dsimp only
              exact consProp_val _ _ _ _ (ih depth path c c2)
      | null =>
          simp only [simplifyProps]
          exact consProp_val _ _ _ _ (ih depth path c c2)
      | bool b =>
          simp only [simplifyProps]
          exact consProp_val _ _ _ _ (ih depth path c c2)
      | int n =>
          simp only [simplifyProps]
          exact consProp_val _ _ _ _ (ih depth path c c2)
      | float n =>
          simp only [simplifyProps]
          exact consProp_val _ _ _ _ (ih depth path c c2)
      | str t =>
          simp only [simplifyProps]
          exact consProp_val _ _ _ _ (ih depth path c c2)
      | arr xs =>
          simp only [simplifyProps]
          exact consProp_val _ _ _ _ (ih depth path c c2)

lemma simplify_schemaAux_val
    (rn : JSON → Nat → List String → List String → Option (CoreResult JSON))
    (hrn : ∀ refv d path c c2,
      (rn refv d path c).map Prod.snd = (rn refv d path c2).map Prod.snd) :
    ∀ (schema : JSON) (depth : Nat) (path c c2 : List String),
      (simplify_schemaAux rn schema depth path c).map Prod.snd =
      (simplify_schemaAux rn schema depth path c2).map Prod.snd := by
  intro schema depth path c c2
  cases schema with
  | null => rfl
  | bool b => rfl
  | int n => rfl
  | float n => rfl
  | str t => rfl
  | arr xs => rfl
  | obj fields =>
      simp only [simplify_schemaAux]
      by_cases hprim : isPrimitiveType ((fields.lookup "type").getD .null) = true
      · rw [if_pos hprim, if_pos hprim]
        rfl
      · rw [if_neg hprim, if_neg hprim]
        by_cases hobj : (isStrEq ((fields.lookup "type").getD .null) "object"
            || (fields.lookup "properties").isSome) = true
        · rw [if_pos hobj, if_pos hobj]
          cases hpv : (fields.lookup "properties").getD (.obj []) with
          | obj props =>
              dsimp only
              have hsp := simplifyProps_val rn hrn props depth path c c2
              cases h1 : simplifyProps rn props depth path c with
              | none =>
                  cases h2 : simplifyProps rn props depth path c2 with
                  | none => rfl
                  | some p2 => rw [h1, h2] at hsp; simp at hsp
              | some p =>
                  cases h2 : simplifyProps rn props depth path c2 with
                  | none => rw [h1, h2] at hsp; simp at hsp
                  | some p2 =>
                      obtain ⟨a, e⟩ := p
                      obtain ⟨a2, e2⟩ := p2
                      rw [h1, h2] at hsp
                      simp only [Option.map_some', Prod.snd,
                        Option.some.injEq] at hsp
                      subst hsp
                      cases e with
                      | ok l => rfl
                      | error err => rfl
          | null => rfl
          | bool b => rfl
          | int n => rfl
          | float n => rfl
          | str t => rfl
          | arr xs => rfl
        · rw [if_neg hobj, if_neg hobj]
          by_cases harr : (isStrEq ((fields.lookup "type").getD .null) "array"
              && (fields.lookup "items").isSome) = true
          · rw [if_pos harr, if_pos harr]
            cases hit : (fields.lookup "items").getD .null with
            | obj itf =>
                dsimp only
                cases hlk : itf.lookup "$ref" with
                | some refv =>
                    dsimp only
                    by_cases hip : refInPath refv path = true
                    · rw [if_pos hip, if_pos hip]
                      rfl
                    · rw [if_neg hip, if_neg hip]
                      have hv := hrn refv (depth + 1) path c c2
                      cases h1 : rn refv (depth + 1) path c with
                      | none =>
                          cases h2 : rn refv (depth + 1) path c2 with
                          | none => rfl
                          | some p2 => rw [h1, h2] at hv; simp at hv
                      | some p =>
                          cases h2 : rn refv (depth + 1) path c2 with
                          | none => rw [h1, h2] at hv; simp at hv
                          | some p2 =>
                              obtain ⟨a, e⟩ := p
                              obtain ⟨a2, e2⟩ := p2
                              rw [h1, h2] at hv
                              simp only [Option.map_some', Prod.snd,
                                Option.some.injEq] at hv
                              subst hv
                              cases e with
                              | ok w => rfl
                              | error err => rfl
                | none => rfl
            | null => rfl
            | bool b => rfl
            | int n => rfl
            | float n => rfl
            | str t => rfl
            | arr xs => rfl
          · rw [if_neg harr, if_neg harr]
            rfl

lemma resolve_refF_val :
    ∀ (fuel : Nat) (st : SwaggerToPostmanConverter) (ref : JSON) (depth : Nat)
      (path c c2 : List String),
      (resolve_refF fuel st ref depth path c).map Prod.snd =
      (resolve_refF fuel st ref depth path c2).map Prod.snd := by
  intro fuel
  induction fuel with
  | zero => intro st ref depth path c c2; rfl
  | succ fuel ih =>
      intro st ref depth path c c2
      simp only [resolve_refF]
      by_cases hd : max_recursion_depth ≤ depth
      · rw [if_pos hd, if_pos hd]
        rfl
      · rw [if_neg hd, if_neg hd]
        by_cases hip : refInPath ref path = true
        · rw [if_pos hip, if_pos hip]
          rfl
        · rw [if_neg hip, if_neg hip]
          cases ref with
          | null => rfl
          | bool b => rfl
          | int n => rfl
          | float n => rfl
          | arr xs => rfl
          | obj ofs => rfl
          | str s =>
              dsimp only
              by_cases hpre : (pyStartsWith s "#/definitions/"
                  || pyStartsWith s "#/components/schemas/") = true
              · rw [if_pos hpre]
                cases hlk : st.components.lookup (lastPart s) with
                | some schema =>
                    dsimp only
                    cases schema with
                    | obj sf =>
                        dsimp only
                        cases hrf : sf.lookup "$ref" with
                        | some r2 =>
                            dsimp only
                            exact ih st r2 (depth + 1) (path ++ [s]) c c2
                        | none =>
                            dsimp only
                            exact simplify_schemaAux_val _
                              (fun a b cc d e => ih st a b cc d e) _ _ _ c c2
                    | null => rfl
                    | bool b => rfl
                    | int n => rfl
                    | float n => rfl
                    | str t => rfl
                    | arr xs => rfl
                | none =>
                    dsimp only
                    cases hw : walkPath st.swagger_data ((pySplitSlash s).drop 1) with
                    | ok v2 =>
                        dsimp only
                        exact simplify_schemaAux_val _
                          (fun a b cc d e => ih st a b cc d e) _ _ _ c c2
                    | error e2 =>
                        cases e2 with
                        | keyErr => rfl
                        | typeErr m => rfl
              · rw [if_neg hpre]
                dsimp only
                cases hw : walkPath st.swagger_data ((pySplitSlash s).drop 1) with
                | ok v2 =>
                    dsimp only
                    exact simplify_schemaAux_val _
                      (fun a b cc d e => ih st a b cc d e) _ _ _ c c2
                | error e2 =>
                    cases e2 with
                    | keyErr => rfl
                    | typeErr m => rfl

lemma generate_example_from_schemaF_val :
    ∀ (fuel : Nat) (st : SwaggerToPostmanConverter) (schema : JSON)
      (depth : Nat) (c c2 : List String),
      (generate_example_from_schemaF fuel st schema depth c).map Prod.snd =
      (generate_example_from_schemaF fuel st schema depth c2).map Prod.snd := by
  intro fuel
  induction fuel with
  | zero => intro st schema depth c c2; rfl
  | succ fuel ih =>
      intro st schema depth c c2
      simp only [generate_example_from_schemaF]
      cases schema with
      | null => rfl
      | bool b => rfl
      | int n => rfl
      | float n => rfl
      | str t => rfl
      | arr xs => rfl
      | obj fields =>
          dsimp only
          by_cases hne : fields.isEmpty = true
          · rw [if_pos hne, if_pos hne]
            rfl
          · rw [if_neg hne, if_neg hne]
            by_cases hd : max_recursion_depth ≤ depth
            · rw [if_pos hd, if_pos hd]
              rfl
            · rw [if_neg hd, if_neg hd]
              cases hrf : fields.lookup "$ref" with
              | some refv =>
                  dsimp only
                  have hv := resolve_refF_val (fuel + 1) st refv 0 [] c c2
                  cases h1 : resolve_refF (fuel + 1) st refv 0 [] c with
                  | none =>
                      cases h2 : resolve_refF (fuel + 1) st refv 0 [] c2 with
                      | none => rfl
                      | some p2 => rw [h1, h2] at hv; simp at hv
                  | some p =>
                      cases h2 : resolve_refF (fuel + 1) st refv 0 [] c2 with
                      | none => rw [h1, h2] at hv; simp at hv
                      | some p2 =>
                          obtain ⟨a, e⟩ := p
                          obtain ⟨a2, e2⟩ := p2
                          rw [h1, h2] at hv
                          simp only [Option.map_some', Prod.snd,
                            Option.some.injEq] at hv
                          subst hv
                          cases e with
                          | ok resolved =>
                              dsimp only
                              exact ih st resolved (depth + 1) a a2
                          | error err => rfl
              | none =>
                  dsimp only
                  cases hex : fields.lookup "example" with
                  | some v2 => rfl
                  | none =>
                      dsimp only
                      cases hdf : fields.lookup "default" with
                      | some v2 => rfl
                      | none => rfl

/-! ## C8 -/

/-- C8: the value (or exception) returned by
`generate_example_from_schema` for a fixed schema and fixed dictionary is
the same whatever the circular-reference registry holds when the call
starts: the code never reads `circular_refs`, so the registry mutations
performed by earlier calls do not change the value returned by later
calls, and repeated calls on the same converter state return identical
values (the embedding is a pure function of its arguments — the source
uses no randomness and no clock). -/
theorem c8_registry_does_not_affect_values (st : SwaggerToPostmanConverter)
    (schema : JSON) (circ circ2 : List String) :
    (generate_example_from_schema st schema 0 circ).map Prod.snd =
    (generate_example_from_schema st schema 0 circ2).map Prod.snd :=
  generate_example_from_schemaF_val 1000 st schema 0 circ circ2

/-! ## Fuel-sufficiency lemmas (claim C5): a fuel budget that depends only
on the depth counter — never on the schema dictionary — is enough for
every call to return, because `resolve_ref` cuts every chain off at
`max_recursion_depth` and each recursive re-entry strictly increases the
depth. -/

lemma consProp_isSome (name : String) (v : JSON)
    (o : Option (CoreResult (List (String × JSON)))) (h : o.isSome = true) :
    (consProp name v o).isSome = true := by
  cases o with
  | none => simp at h
  | some p =>
      obtain ⟨c, e⟩ := p
      cases e with
      | ok l => rfl
      | error err => rfl

lemma simplifyProps_isSome
    (rn : JSON → Nat → List String → List String → Option (CoreResult JSON))
    (depth : Nat) (path : List String)
    (hrn : ∀ refv c, (rn refv (depth + 1) path c).isSome = true) :
    ∀ (props : List (String × JSON)) (circ : List String),
      (simplifyProps rn props depth path circ).isSome = true := by
  intro props
  induction props with
  | nil => intro circ; rfl
  | cons hd tl ih =>
      obtain ⟨name, ps⟩ := hd
      intro circ
      cases ps with
      | obj pf =>
          simp only [simplifyProps]
          cases hlk : pf.lookup "$ref" with
          | some refv =>
              dsimp only
              by_cases hip : refInPath refv path = true
              · rw [if_pos hip]
                exact consProp_isSome _ _ _ (ih circ)
              · rw [if_neg hip]
                cases hres : rn refv (depth + 1) path circ with
                | none =>
                    have := hrn refv circ
                    rw [hres] at this
                    simp at this
                | some p =>
                    obtain ⟨c1, e⟩ := p
                    cases e with
                    | ok w =>
                        dsimp only
                        exact consProp_isSome _ _ _ (ih c1)
                    | error err => rfl
          | none =>
              dsimp only
              exact consProp_isSome _ _ _ (ih circ)
      | null => exact consProp_isSome _ _ _ (ih circ)
      | bool b => exact consProp_isSome _ _ _ (ih circ)
      | int n => exact consProp_isSome _ _ _ (ih circ)
      | float n => exact consProp_isSome _ _ _ (ih circ)
      | str t => exact consProp_isSome _ _ _ (ih circ)
      | arr xs => exact consProp_isSome _ _ _ (ih circ)

lemma simplify_schemaAux_isSome
    (rn : JSON → Nat → List String → List String → Option (CoreResult JSON))
    (depth : Nat) (path : List String)
    (hrn : ∀ refv c, (rn refv (depth + 1) path c).isSome = true) :
    ∀ (schema : JSON) (circ : List String),
      (simplify_schemaAux rn schema depth path circ).isSome = true := by
  intro schema circ
  cases schema with
  | null => rfl
  | bool b => rfl
  | int n => rfl
  | float n => rfl
  | str t => rfl
  | arr xs => rfl
  | obj fields =>
      simp only [simplify_schemaAux]
      by_cases hprim : isPrimitiveType ((fields.lookup "type").getD .null) = true
      · rw [if_pos hprim]
        rfl
      · rw [if_neg hprim]
        by_cases hobj : (isStrEq ((fields.lookup "type").getD .null) "object"
            || (fields.lookup "properties").isSome) = true
        · rw [if_pos hobj]
          cases hpv : (fields.lookup "properties").getD (.obj []) with
          | obj props =>
              dsimp only
              cases hsp : simplifyProps rn props depth path circ with
              | none =>
                  have := simplifyProps_isSome rn depth path hrn props circ
                  rw [hsp] at this
                  simp at this
              | some p =>
                  obtain ⟨c, e⟩ := p
                  cases e with
                  | ok l => rfl
                  | error err => rfl
          | null => rfl
          | bool b => rfl
          | int n => rfl
          | float n => rfl
          | str t => rfl
          | arr xs => rfl
        · rw [if_neg hobj]
          by_cases harr : (isStrEq ((fields.lookup "type").getD .null) "array"
              && (fields.lookup "items").isSome) = true
          · rw [if_pos harr]
            cases hit : (fields.lookup "items").getD .null with
            | obj itf =>
                dsimp only
                cases hlk : itf.lookup "$ref" with
                | some refv =>
                    dsimp only
                    by_cases hip : refInPath refv path = true
                    · rw [if_pos hip]
                      rfl
                    · rw [if_neg hip]
                      cases hres : rn refv (depth + 1) path circ with
                      | none =>
                          have := hrn refv circ
                          rw [hres] at this
                          simp at this
                      | some p =>
                          obtain ⟨c, e⟩ := p
                          cases e with
                          | ok w => rfl
                          | error err => rfl
                | none => rfl
            | null => rfl
            | bool b => rfl
            | int n => rfl
            | float n => rfl
            | str t => rfl
            | arr xs => rfl
          · rw [if_neg harr]
            rfl

lemma resolve_refF_isSome :
    ∀ (fuel : Nat) (st : SwaggerToPostmanConverter) (ref : JSON) (depth : Nat)
      (path circ : List String), 11 - depth < fuel →
      (resolve_refF fuel st ref depth path circ).isSome = true := by
  intro fuel
  induction fuel with
  | zero =>
      intro st ref depth path circ hb
      exact absurd hb (Nat.not_lt_zero _)
  | succ fuel ih =>
      intro st ref depth path circ hb
      simp only [resolve_refF]
      by_cases hd : max_recursion_depth ≤ depth
      · rw [if_pos hd]
        rfl
      · rw [if_neg hd]
        have hdepth : depth < 10 := by
          simpa [max_recursion_depth] using hd
        by_cases hip : refInPath ref path = true
        · rw [if_pos hip]
          rfl
        · rw [if_neg hip]
          have hnext : ∀ (refv : JSON) (d : Nat) (c path2 : List String),
              d ≥ depth + 1 →
              (resolve_refF fuel st refv d path2 c).isSome = true := by
            intro refv d c path2 hdge
            exact ih st refv d path2 c (by omega)
          cases ref with
          | null => rfl
          | bool b => rfl
          | int n => rfl
          | float n => rfl
          | arr xs => rfl
          | obj ofs => rfl
          | str s =>
              dsimp only
              by_cases hpre : (pyStartsWith s "#/definitions/"
                  || pyStartsWith s "#/components/schemas/") = true
              · rw [if_pos hpre]
                cases hlk : st.components.lookup (lastPart s) with
                | some schema =>
                    dsimp only
                    cases schema with
                    | obj sf =>
                        dsimp only
                        cases hrf : sf.lookup "$ref" with
                        | some r2 =>
                            dsimp only
                            exact hnext r2 (depth + 1) circ (path ++ [s]) (by omega)
                        | none =>
                            dsimp only
                            exact simplify_schemaAux_isSome _ (depth + 1) _
                              (fun refv c => hnext refv (depth + 2) c (path ++ [s])
                                (by omega)) _ circ
                    | null => rfl
                    | bool b => rfl
                    | int n => rfl
                    | float n => rfl
                    | str t => rfl
                    | arr xs => rfl
                | none =>
                    dsimp only
                    cases hw : walkPath st.swagger_data ((pySplitSlash s).drop 1) with
                    | ok v2 =>
                        dsimp only
                        exact simplify_schemaAux_isSome _ (depth + 1) _
                          (fun refv c => hnext refv (depth + 2) c (path ++ [s])
                            (by omega)) _ circ
                    | error e2 =>
                        cases e2 with
                        | keyErr => rfl
                        | typeErr m => rfl
              · rw [if_neg hpre]
                dsimp only
                cases hw : walkPath st.swagger_data ((pySplitSlash s).drop 1) with
                | ok v2 =>
                    dsimp only
                    exact simplify_schemaAux_isSome _ (depth + 1) _
                      (fun refv c => hnext refv (depth + 2) c (path ++ [s])
                        (by omega)) _ circ
                | error e2 =>
                    cases e2 with
                    | keyErr => rfl
                    | typeErr m => rfl

lemma generate_example_from_schemaF_isSome :
    ∀ (fuel : Nat) (st : SwaggerToPostmanConverter) (schema : JSON)
      (depth : Nat) (circ : List String), 12 + (10 - depth) ≤ fuel →
      (generate_example_from_schemaF fuel st schema depth circ).isSome = true := by
  intro fuel
  induction fuel with
  | zero =>
      intro st schema depth circ hb
      omega
  | succ fuel ih =>
      intro st schema depth circ hb
      simp only [generate_example_from_schemaF]
      cases schema with
      | null => rfl
      | bool b => rfl
      | int n => rfl
      | float n => rfl
      | str t => rfl
      | arr xs => rfl
      | obj fields =>
          dsimp only
          by_cases hne : fields.isEmpty = true
          · rw [if_pos hne]
            rfl
          · rw [if_neg hne]
            by_cases hd : max_recursion_depth ≤ depth
            · rw [if_pos hd]
              rfl
            · rw [if_neg hd]
              have hdepth : depth < 10 := by
                simpa [max_recursion_depth] using hd
              cases hrf : fields.lookup "$ref" with
              | some refv =>
                  dsimp only
                  cases hres : resolve_refF (fuel + 1) st refv 0 [] circ with
                  | none =>
                      have := resolve_refF_isSome (fuel + 1) st refv 0 [] circ
                        (by omega)
                      rw [hres] at this
                      simp at this
                  | some p =>
                      obtain ⟨c1, e⟩ := p
                      cases e with
                      | ok resolved =>
                          dsimp only
                          exact ih st resolved (depth + 1) c1 (by omega)
                      | error err => rfl
              | none =>
                  dsimp only
                  cases hex : fields.lookup "example" with
                  | some v2 => rfl
                  | none =>
                      dsimp only
                      cases hdf : fields.lookup "default" with
                      | some v2 => rfl
                      | none => rfl

/-! ## C5 -/

/-- C5: termination with a uniform bound.  The fuel parameter counts the
`resolve_ref` (respectively `generate_example_from_schema`) frames the
Python call stack may still gain; a fixed budget of 22 — independent of
the schema dictionary, of the document, of cycles in the reference graph,
and of the starting registry — is enough for every call to return a
defined result, because every recursive re-entry strictly increases a
depth counter that `resolve_ref` cuts off at `max_recursion_depth` (10).
So no input causes unbounded recursion. -/
theorem c5_termination (fuel : Nat) (st : SwaggerToPostmanConverter)
    (ref schema : JSON) (depth gdepth : Nat) (path circ gcirc : List String)
    (hfuel : 22 ≤ fuel) :
    (resolve_refF fuel st ref depth path circ).isSome = true
    ∧ (generate_example_from_schemaF fuel st schema gdepth gcirc).isSome = true :=
  ⟨resolve_refF_isSome fuel st ref depth path circ (by omega),
   generate_example_from_schemaF_isSome fuel st schema gdepth gcirc (by omega)⟩

/-- C5 witnessed at fuel exactly 22 on the cyclic dictionary. -/
theorem c5_termination_witness :
    22 ≤ 22
    ∧ ((resolve_refF 22 stSelfRef (.str "#/definitions/A") 0 [] []).isSome = true
      ∧ (generate_example_from_schemaF 22 stSelfRef
          (.obj [("$ref", .str "#/definitions/A")]) 0 []).isSome = true) :=
  ⟨by decide,
   c5_termination 22 stSelfRef (.str "#/definitions/A")
     (.obj [("$ref", .str "#/definitions/A")]) 0 0 [] [] [] (by decide)⟩
